import Mathlib

/-!
Shallow embedding of `src/bank_analysis.py`, a linear pandas pipeline over a
fixed 20-record table of simulated bank transactions:
data generation → cleaning diagnostics → aggregation → (plotting, not modelled).

Column names in the source are Chinese; the field names used here follow the
spec's English rendering:
  交易ID → transaction_id, 客户ID → customer_id, 交易类型 → transaction_type,
  交易金额 → amount, 交易渠道 → channel, 交易状态 → status.
Cell values (customer ids, the Chinese enumeration labels 存款/取款/转账,
网银/ATM/手机银行/柜台, 成功/失败) are kept verbatim as string literals.
-/

namespace BankAnalysis

/-- Lexicographic strict order on character lists by Unicode code point,
the order pandas uses when it sorts the labels of an object column. -/
def charListLt : List Char → List Char → Bool
  | [], [] => false
  | [], _ :: _ => true
  | _ :: _, [] => false
  | a :: as, b :: bs =>
    if a.val < b.val then true
    else if b.val < a.val then false
    else charListLt as bs

/-- Code-point lexicographic `≤` on strings (via their character lists). -/
def strLe (a b : String) : Bool := !(charListLt b.data a.data)

/-- Insert `x` into a list assumed sorted by `le`, before the first element
it compares `le` to (stable insertion). -/
def insertLe (le : α → α → Bool) (x : α) : List α → List α
  | [] => [x]
  | y :: ys => if le x y then x :: y :: ys else y :: insertLe le x ys

/-- Stable insertion sort by the boolean relation `le`. -/
def sortLe (le : α → α → Bool) : List α → List α
  | [] => []
  | x :: xs => insertLe le x (sortLe le xs)

/-- Keep the first occurrence of each element, dropping later repeats;
`seen` accumulates the elements already emitted. -/
def uniqFirstAux [DecidableEq α] (seen : List α) : List α → List α
  | [] => []
  | x :: xs =>
    if seen.contains x then uniqFirstAux seen xs
    else x :: uniqFirstAux (x :: seen) xs

/-- Distinct elements of a list, in order of first occurrence. -/
def uniqFirst [DecidableEq α] (l : List α) : List α := uniqFirstAux [] l

/-- One pandas cell: an integer, a string, or a null (NaN/None).  The fixed
dataset is built from integer and string literals only, but a cell of the
DataFrame could in principle be null, and the missing-value check genuinely
inspects every cell for nullness. -/
inductive Cell where
  | int (v : Int)
  | str (s : String)
  | null
deriving DecidableEq, Repr

/-- Whether a cell is null — the per-cell test behind `df.isnull()`. -/
def Cell.isNull : Cell → Bool
  | .null => true
  | _ => false

/-- One row of the DataFrame `df`: a single transaction record. -/
structure Row where
  transaction_id : Int
  customer_id : String
  transaction_type : String
  amount : Int
  channel : String
  status : String
deriving DecidableEq, Repr

/-- The six cells of a row, in column order. -/
def Row.cells (r : Row) : List Cell :=
  [.int r.transaction_id, .str r.customer_id, .str r.transaction_type,
   .int r.amount, .str r.channel, .str r.status]

/-- The column names of `df`, in order (the keys of the `data` dict). -/
def columns : List String :=
  ["交易ID", "客户ID", "交易类型", "交易金额", "交易渠道", "交易状态"]

/-- Column '交易ID' of the `data` dict: `range(1001, 1021)`. -/
def data_transaction_id : List Int := (List.range' 1001 20).map (fun n => (n : Int))

/-- Column '客户ID' of the `data` dict. -/
def data_customer_id : List String :=
  ["C1001", "C1002", "C1001", "C1003", "C1004", "C1002", "C1005", "C1003", "C1006", "C1007",
   "C1008", "C1004", "C1009", "C1010", "C1005", "C1001", "C1006", "C1011", "C1002", "C1003"]

/-- Column '交易类型' of the `data` dict (存款 deposit, 取款 withdrawal, 转账 transfer). -/
def data_transaction_type : List String :=
  ["存款", "取款", "转账", "存款", "取款", "转账", "存款", "取款", "存款", "转账",
   "取款", "存款", "转账", "存款", "取款", "转账", "存款", "取款", "存款", "转账"]

/-- Column '交易金额' of the `data` dict. -/
def data_amount : List Int :=
  [5000, -2000, -1500, 8000, -500, -3000, 12000, -2200, 6000, -4000,
   -1000, 7000, -2500, 9000, -1200, -3500, 4500, -800, 3000, -1500]

/-- Column '交易渠道' of the `data` dict (网银 online banking, ATM, 手机银行
mobile banking, 柜台 counter). -/
def data_channel : List String :=
  ["网银", "ATM", "手机银行", "柜台", "ATM", "网银", "手机银行", "柜台", "网银", "手机银行",
   "ATM", "柜台", "网银", "手机银行", "ATM", "手机银行", "柜台", "ATM", "网银", "柜台"]

/-- Column '交易状态' of the `data` dict (成功 success, 失败 failure). -/
def data_status : List String :=
  ["成功", "成功", "成功", "成功", "失败", "成功", "成功", "成功", "成功", "成功",
   "成功", "成功", "成功", "成功", "成功", "成功", "成功", "成功", "成功", "成功"]

/-- The DataFrame `df = pd.DataFrame(data)`: the six parallel columns zipped
by position into rows. -/
def df : List Row :=
  (List.zip data_transaction_id
    (List.zip data_customer_id
      (List.zip data_transaction_type
        (List.zip data_amount
          (List.zip data_channel data_status))))).map
    (fun (i, c, t, a, ch, s) => ⟨i, c, t, a, ch, s⟩)

/-- Per-column null counts, `df.isnull().sum()`: for each column position the
number of rows whose cell in that column is null. -/
def isnull_sum (rows : List Row) : List (String × Nat) :=
  (List.range columns.length).map fun j =>
    (columns.getD j "",
     (rows.filter (fun r => (r.cells.getD j .null).isNull)).length)

/-- Count the rows equal to some earlier row, `df.duplicated().sum()` with the
default keep-first marking: a row counts when it already occurred before it. -/
def dupCountAux [DecidableEq α] (seen : List α) : List α → Nat
  | [] => 0
  | x :: xs =>
    (if seen.contains x then 1 else 0) + dupCountAux (x :: seen) xs

/-- `duplicate_rows = df.duplicated().sum()` on the fixed dataset. -/
def duplicate_rows : Nat := dupCountAux [] df

/-- The outlier filter of step 2.3 applied to arbitrary rows:
`rows[(amount > 10000) | (amount < -5000)]`. -/
def outlierFilter (rows : List Row) : List Row :=
  rows.filter (fun r => decide (r.amount > 10000) || decide (r.amount < -5000))

/-- `abnormal = df[(df['交易金额'] > 10000) | (df['交易金额'] < -5000)]`. -/
def abnormal : List Row := outlierFilter df

/-- What step 2.3 prints: the flagged rows when some exist, otherwise the
fixed absence message. -/
inductive OutlierReport where
  | flagged (rows : List Row)
  | noneMsg (msg : String)
deriving DecidableEq, Repr

/-- The branch `if not abnormal.empty: print(abnormal) else: print(...)`
applied to arbitrary rows. -/
def outlierReportOf (rows : List Row) : OutlierReport :=
  if (outlierFilter rows).isEmpty then .noneMsg "未发现定义的异常值。"
  else .flagged (outlierFilter rows)

/-- The outlier report the script prints for the fixed dataset. -/
def outlier_report : OutlierReport := outlierReportOf df

/-- A pandas categorical column: the sorted list of category labels, and for
each row the index of its label in that list. -/
structure CatCol where
  categories : List String
  codes : List Nat
deriving DecidableEq, Repr

/-- `Series.astype('category')`: categories are the distinct values sorted
lexicographically; each value is stored as the index of its category. -/
def astype_category (col : List String) : CatCol :=
  let cats := sortLe strLe (uniqFirst col)
  ⟨cats, col.map (fun v => cats.indexOf v)⟩

/-- The values a categorical column displays: each code decoded back to its
category label. -/
def CatCol.values (c : CatCol) : List String :=
  c.codes.map (fun i => c.categories.getD i "")

/-- The categorical retyping of column 交易类型 (step 2.4). -/
def transaction_type_cat : CatCol := astype_category (df.map (·.transaction_type))

/-- The categorical retyping of column 交易渠道 (step 2.4). -/
def channel_cat : CatCol := astype_category (df.map (·.channel))

/-- The table after the Cleaner stage: the 交易类型 and 交易渠道 columns replaced
by the displayed values of their categorical retypings, all other columns
untouched (the checks of steps 2.1–2.3 only read the table). -/
def cleaned_df : List Row :=
  List.zipWith
    (fun r tc => { r with transaction_type := tc.1, channel := tc.2 })
    df (List.zip transaction_type_cat.values channel_cat.values)

/-- Amounts of a table sorted ascending, as `describe` works on them. -/
def sortedAmounts (rows : List Row) : List Int :=
  sortLe (fun a b => decide (a ≤ b)) (rows.map (·.amount))

/-- Linear-interpolation quantile of an ascending list, pandas' default:
the value at fractional position `q * (n - 1)` of the sorted data. -/
def quantileAt (s : List Int) (q : Rat) : Rat :=
  let n := s.length
  if n = 0 then 0
  else
    let pos : Rat := q * ((n : Rat) - 1)
    let i : Nat := pos.floor.toNat
    let a : Rat := ((s.getD i 0 : Int) : Rat)
    let b : Rat := ((s.getD (min (i + 1) (n - 1)) 0 : Int) : Rat)
    a + (pos - (i : Rat)) * (b - a)

/-- Mean of the amount column. -/
def amountMean (rows : List Row) : Rat :=
  ((rows.map (·.amount)).sum : Int) / (rows.length : Rat)

/-- Sample variance (ddof = 1) of the amount column; `describe` prints its
square root as `std`, and the square root of an equal variance is equal, so
recording the variance determines the printed value. -/
def amountVar (rows : List Row) : Rat :=
  let m := amountMean rows
  ((rows.map (fun r => ((r.amount : Rat) - m) ^ 2)).sum) / ((rows.length : Rat) - 1)

/-- The output of `df['交易金额'].describe()`: count, mean, variance (whose
square root is the printed std), min, the three quartiles, max. -/
structure DescribeStats where
  count : Nat
  mean : Rat
  var : Rat
  min : Int
  q25 : Rat
  q50 : Rat
  q75 : Rat
  max : Int
deriving DecidableEq, Repr

/-- Descriptive statistics of the amount column of a table (step 3.1). -/
def describeAmount (rows : List Row) : DescribeStats :=
  let s := sortedAmounts rows
  ⟨rows.length, amountMean rows, amountVar rows,
   s.headD 0, quantileAt s (1 / 4), quantileAt s (1 / 2), quantileAt s (3 / 4),
   s.getLastD 0⟩

/-- Round a rational to 2 decimal places, as `.round(2)` does. -/
def round2 (q : Rat) : Rat := ((round (q * 100) : Int) : Rat) / 100

/-- One row of the grouped summary `type_summary`: the group key and its
`count`, `sum`, `mean` aggregates of 交易金额, rounded to 2 decimals. -/
structure TypeSummaryRow where
  key : String
  count : Nat
  sum : Int
  mean : Rat
deriving DecidableEq, Repr

/-- The rows of a table whose 交易类型 equals `t`. -/
def groupOfType (rows : List Row) (t : String) : List Row :=
  rows.filter (fun r => r.transaction_type == t)

/-- `df.groupby('交易类型')['交易金额'].agg(['count', 'sum', 'mean']).round(2)`:
one summary row per category of the categorical 交易类型 column, in category
order (step 3.2). -/
def typeSummaryOf (rows : List Row) : List TypeSummaryRow :=
  (astype_category (rows.map (·.transaction_type))).categories.map fun t =>
    let g := groupOfType rows t
    ⟨t, g.length, (g.map (·.amount)).sum,
     round2 (((g.map (·.amount)).sum : Int) / (g.length : Rat))⟩

/-- The grouped summary the script prints for the fixed dataset. -/
def type_summary : List TypeSummaryRow := typeSummaryOf cleaned_df

/-- `Series.value_counts()`: each distinct value paired with its number of
occurrences, sorted by count descending (stably, so ties keep first-occurrence
order). -/
def value_counts (col : List String) : List (String × Nat) :=
  sortLe (fun a b => decide (b.2 ≤ a.2))
    ((uniqFirst col).map (fun v => (v, col.count v)))

/-- `channel_count = df['交易渠道'].value_counts()` (step 3.3). -/
def channel_count : List (String × Nat) := value_counts (cleaned_df.map (·.channel))

/-- `failed_transactions = df[df['交易状态'] == '失败']` (step 3.4). -/
def failed_transactions : List Row :=
  cleaned_df.filter (fun r => r.status == "失败")

/-- The aggregate outputs of one run of the Analyzer stage (the four results
the script prints in step 3). -/
structure Outputs where
  describe_amount : DescribeStats
  type_summary : List TypeSummaryRow
  channel_count : List (String × Nat)
  failed_transactions : List Row
deriving DecidableEq, Repr

/-- One run of the analysis pipeline over a table: clean (retype the two
categorical columns), then compute the four aggregate outputs. -/
def runPipelineOn (rows : List Row) : Outputs :=
  let cleaned := List.zipWith
    (fun r tc => { r with transaction_type := tc.1, channel := tc.2 })
    rows (List.zip (astype_category (rows.map (·.transaction_type))).values
                   (astype_category (rows.map (·.channel))).values)
  ⟨describeAmount cleaned, typeSummaryOf cleaned,
   value_counts (cleaned.map (·.channel)),
   cleaned.filter (fun r => r.status == "失败")⟩

/-- The pipeline run the script performs: the fixed literal dataset fed
through cleaning and analysis. -/
def runPipeline : Outputs := runPipelineOn df

/-- Whether each entry's count is ≥ the next entry's count, i.e. the list of
value counts is sorted descending by count. -/
def descendingByCount : List (String × Nat) → Bool
  | [] => true
  | [_] => true
  | a :: b :: rest => decide (b.2 ≤ a.2) && descendingByCount (b :: rest)

/-- C1, counterexample: the claim says the outlier filter flags exactly 2 rows
(amounts 12000 and -3500), but on the fixed dataset it flags exactly 1 row:
-3500 satisfies neither -3500 > 10000 nor -3500 < -5000, so the row with
amount -3500 (transaction 1016) is not in `abnormal`. -/
theorem C1_two_rows_flagged_false :
    abnormal.length = 1 ∧ ¬ abnormal.length = 2 ∧
    (⟨1016, "C1001", "转账", -3500, "手机银行", "成功"⟩ : Row) ∉ abnormal := by
  decide

/-- C1, amended: applying the outlier filter (amount > 10000 or
amount < -5000) to the fixed 20-record dataset yields exactly the one row with
amount 12000 — the row with amount -3500 is not flagged, since -3500 ≥ -5000 —
so the report prints that single flagged row; when no row is flagged, the
fixed absence message is printed instead. -/
theorem C1_outlier_filter_amended :
    abnormal = [⟨1007, "C1005", "存款", 12000, "手机银行", "成功"⟩] ∧
    outlier_report =
      OutlierReport.flagged [⟨1007, "C1005", "存款", 12000, "手机银行", "成功"⟩] ∧
    outlierReportOf [] = OutlierReport.noneMsg "未发现定义的异常值。" := by
  decide

/-- C2: the Cleaner stage leaves every cell value of the table unchanged —
after the read-only checks and the categorical retyping of 交易类型 and 交易渠道,
the table equals the one the Data Generator produced row for row, and each
retyped column displays exactly its original values. -/
theorem C2_cleaner_preserves_values :
    cleaned_df = df ∧
    transaction_type_cat.values = df.map (·.transaction_type) ∧
    channel_cat.values = df.map (·.channel) := by
  decide

/-- C3: the generated table has exactly 20 rows and exactly 6 columns (every
row carries 6 cells), and its 交易ID column is exactly the contiguous integer
range 1001–1020 in order. -/
theorem C3_table_shape_and_ids :
    df.length = 20 ∧ columns.length = 6 ∧
    df.all (fun r => r.cells.length == 6) = true ∧
    df.map (·.transaction_id) = (List.range 20).map (fun i => (1001 : Int) + i) := by
  decide

/-- C4: filtering the fixed dataset for rows with status 失败 (failure) returns
exactly 1 row, and that row has customer_id C1004 and amount -500. -/
theorem C4_failure_filter_single_row :
    failed_transactions.length = 1 ∧
    failed_transactions = [⟨1005, "C1004", "取款", -500, "ATM", "失败"⟩] ∧
    failed_transactions.map (·.customer_id) = ["C1004"] ∧
    failed_transactions.map (·.amount) = [-500] := by
  decide

/-- C5: the duplicate check, counting fully-identical rows of the fixed
20-record dataset, returns zero. -/
theorem C5_duplicate_count_zero : duplicate_rows = 0 := by
  decide

/-- C6: the missing-value check — which counts the null cells of each column —
reports a count of zero for every one of the six columns of the fixed
dataset. -/
theorem C6_missing_value_counts_zero :
    isnull_sum df =
      [("交易ID", 0), ("客户ID", 0), ("交易类型", 0),
       ("交易金额", 0), ("交易渠道", 0), ("交易状态", 0)] := by
  decide

/-- C7: the group-by on 交易类型 partitions the fixed dataset — the per-type
row counts of the grouped summary sum to exactly 20, the group keys are
pairwise distinct (no row is double-counted), each summary count is the size
of its key's group, and every row's type belongs to some group. -/
theorem C7_type_groups_partition :
    (type_summary.map (·.count)).sum = 20 ∧
    (type_summary.map (·.key)).Nodup ∧
    type_summary.all
      (fun s => s.count == (groupOfType cleaned_df s.key).length) = true ∧
    cleaned_df.all
      (fun r => (type_summary.map (·.key)).contains r.transaction_type) = true := by
  decide

/-- C8: the pipeline is deterministic — any two runs over the identical
literal dataset produce identical aggregate outputs (descriptive statistics,
grouped summary, channel value counts, failure-filter result). -/
theorem C8_pipeline_deterministic :
    ∀ o₁ o₂ : Outputs, o₁ = runPipeline → o₂ = runPipeline → o₁ = o₂ := by
  intro o₁ o₂ h₁ h₂
  rw [h₁, h₂]

/-- Witness for C8: instantiating both runs with the pipeline's actual output
yields their equality. -/
theorem C8_pipeline_deterministic_witness : runPipeline = runPipeline :=
  C8_pipeline_deterministic runPipeline runPipeline rfl rfl

/-- C9: the channel value-counts result pairs every channel with the number
of rows carrying it — each entry's count equals the size of that channel's
row set, every row's channel appears among the entries, no channel is listed
twice — and its entries are ordered descending by count (each entry's count
is ≥ the next entry's count). -/
theorem C9_channel_counts_descending :
    descendingByCount channel_count = true ∧
    channel_count.all
      (fun p => p.2 == (cleaned_df.filter (fun r => r.channel == p.1)).length) = true ∧
    (cleaned_df.map (·.channel)).all
      (fun c => (channel_count.map (·.1)).contains c) = true ∧
    (channel_count.map (·.1)).Nodup := by
  decide

/-- C10: in the fixed dataset every 存款 (deposit) row has a strictly positive
amount and every 取款 (withdrawal) or 转账 (transfer) row has a strictly
negative amount, so each per-type group of the grouped summary is
sign-homogeneous (all its amounts positive, or all negative). -/
theorem C10_amount_sign_by_type :
    df.all
      (fun r => !(r.transaction_type == "存款") || decide (0 < r.amount)) = true ∧
    df.all
      (fun r => !(r.transaction_type == "取款") && !(r.transaction_type == "转账")
        || decide (r.amount < 0)) = true ∧
    type_summary.all
      (fun s => (groupOfType cleaned_df s.key).all (fun r => decide (0 < r.amount))
        || (groupOfType cleaned_df s.key).all (fun r => decide (r.amount < 0))) = true := by
  decide

end BankAnalysis
